import Mathlib

/-!
Verification of the UI navigation and input-resolution core of a terminal
kanban application. The Rust source (`src/app/state.rs`, `src/inputs/key.rs`)
is shallowly embedded below: pure functions become Lean functions, panicking
paths become `none`/`Except.error`, and machine strings are Lean `String`s.
-/

namespace RustKanban

/-- Logical key values (`Key` enum from `src/inputs/key.rs`). -/
inductive Key where
  | Enter
  | Tab
  | Backspace
  | Esc
  | Space
  | Left
  | Right
  | Up
  | Down
  | Ins
  | Delete
  | Home
  | End
  | PageUp
  | PageDown
  | F0
  | F1
  | F2
  | F3
  | F4
  | F5
  | F6
  | F7
  | F8
  | F9
  | F10
  | F11
  | F12
  | Char (c : Char)
  | Ctrl (c : Char)
  | Alt (c : Char)
  | BackTab
  | ShiftUp
  | ShiftDown
  | ShiftLeft
  | ShiftRight
  | Unknown
deriving DecidableEq

/-- Modelled from the spec: the `Action` enumeration of abstract user intents
(`src/app/actions.rs` is not among the provided sources; the variant set is the
one referenced by `KeyBindings::key_to_action` and listed in the spec). -/
inductive Action where
  | Quit
  | NextFocus
  | PrvFocus
  | OpenConfigMenu
  | Up
  | Down
  | Right
  | Left
  | TakeUserInput
  | StopUserInput
  | HideUiElement
  | SaveState
  | NewBoard
  | NewCard
  | DeleteCard
  | DeleteBoard
  | ChangeCardStatusToCompleted
  | ChangeCardStatusToActive
  | ChangeCardStatusToStale
  | ResetUI
  | GoToMainMenu
  | ToggleCommandPalette
  | ClearAllToasts
  | Undo
  | Redo
deriving DecidableEq

/-- Screen layouts (`UiMode` enum from `src/app/state.rs`). -/
inductive UiMode where
  | Zen
  | TitleBody
  | BodyHelp
  | BodyLog
  | TitleBodyHelp
  | TitleBodyLog
  | TitleBodyHelpLog
  | BodyHelpLog
  | ConfigMenu
  | EditKeybindings
  | MainMenu
  | HelpMenu
  | LogsOnly
  | NewBoard
  | NewCard
  | LoadSave
  | CreateTheme
  | Login
  | SignUp
  | ResetPassword
  | LoadCloudSave
deriving DecidableEq

/-- Focusable UI elements (`Focus` enum from `src/app/state.rs`). -/
inductive Focus where
  | Title
  | Body
  | Help
  | Log
  | ConfigTable
  | ConfigHelp
  | MainMenu
  | MainMenuHelp
  | NewBoardName
  | NewBoardDescription
  | CardName
  | CardDescription
  | CardDueDate
  | SubmitButton
  | EditKeybindingsTable
  | CloseButton
  | CommandPaletteCommand
  | CommandPaletteCard
  | CommandPaletteBoard
  | LoadSave
  | SelectDefaultView
  | ChangeUiModePopup
  | ChangeCardStatusPopup
  | EditGeneralConfigPopup
  | EditSpecificKeyBindingPopup
  | ThemeSelector
  | ThemeEditor
  | StyleEditorFG
  | StyleEditorBG
  | StyleEditorModifier
  | TextInput
  | CardPriority
  | CardStatus
  | CardTags
  | CardComments
  | ChangeCardPriorityPopup
  | ChangeDateFormatPopup
  | FilterByTagPopup
  | NoFocus
  | ExtraFocus
  | EmailIDField
  | PasswordField
  | ConfirmPasswordField
  | SendResetPasswordLinkButton
  | ResetPasswordLinkField
deriving DecidableEq

/-- The key-binding table (`KeyBindings` struct from `src/app/state.rs`):
one ordered key list per action. -/
structure KeyBindings where
  quit : List Key
  open_config_menu : List Key
  up : List Key
  down : List Key
  right : List Key
  left : List Key
  next_focus : List Key
  prev_focus : List Key
  take_user_input : List Key
  stop_user_input : List Key
  hide_ui_element : List Key
  save_state : List Key
  new_board : List Key
  new_card : List Key
  delete_board : List Key
  delete_card : List Key
  change_card_status_to_completed : List Key
  change_card_status_to_active : List Key
  change_card_status_to_stale : List Key
  reset_ui : List Key
  go_to_main_menu : List Key
  toggle_command_palette : List Key
  clear_all_toasts : List Key
  undo : List Key
  redo : List Key
deriving DecidableEq

/-- `KeyBindings::iter`: the canonical enumeration of the table as
`(action name, key list)` pairs, in the declared priority order. -/
def KeyBindings.iter (tb : KeyBindings) : List (String × List Key) :=
  [ ("quit", tb.quit)
  , ("next_focus", tb.next_focus)
  , ("prev_focus", tb.prev_focus)
  , ("open_config_menu", tb.open_config_menu)
  , ("up", tb.up)
  , ("down", tb.down)
  , ("right", tb.right)
  , ("left", tb.left)
  , ("take_user_input", tb.take_user_input)
  , ("stop_user_input", tb.stop_user_input)
  , ("hide_ui_element", tb.hide_ui_element)
  , ("save_state", tb.save_state)
  , ("new_board", tb.new_board)
  , ("new_card", tb.new_card)
  , ("delete_card", tb.delete_card)
  , ("delete_board", tb.delete_board)
  , ("change_card_status_to_completed", tb.change_card_status_to_completed)
  , ("change_card_status_to_active", tb.change_card_status_to_active)
  , ("change_card_status_to_stale", tb.change_card_status_to_stale)
  , ("reset_ui", tb.reset_ui)
  , ("go_to_main_menu", tb.go_to_main_menu)
  , ("toggle_command_palette", tb.toggle_command_palette)
  , ("clear_all_toasts", tb.clear_all_toasts)
  , ("undo", tb.undo)
  , ("redo", tb.redo)
  ]

/-- The inner name-to-action dispatch of `KeyBindings::key_to_action`. -/
def actionOfName (action : String) : Option Action :=
  if action = "quit" then some Action.Quit
  else if action = "next_focus" then some Action.NextFocus
  else if action = "prev_focus" then some Action.PrvFocus
  else if action = "open_config_menu" then some Action.OpenConfigMenu
  else if action = "up" then some Action.Up
  else if action = "down" then some Action.Down
  else if action = "right" then some Action.Right
  else if action = "left" then some Action.Left
  else if action = "take_user_input" then some Action.TakeUserInput
  else if action = "stop_user_input" then some Action.StopUserInput
  else if action = "hide_ui_element" then some Action.HideUiElement
  else if action = "save_state" then some Action.SaveState
  else if action = "new_board" then some Action.NewBoard
  else if action = "new_card" then some Action.NewCard
  else if action = "delete_card" then some Action.DeleteCard
  else if action = "delete_board" then some Action.DeleteBoard
  else if action = "change_card_status_to_completed" then some Action.ChangeCardStatusToCompleted
  else if action = "change_card_status_to_active" then some Action.ChangeCardStatusToActive
  else if action = "change_card_status_to_stale" then some Action.ChangeCardStatusToStale
  else if action = "reset_ui" then some Action.ResetUI
  else if action = "go_to_main_menu" then some Action.GoToMainMenu
  else if action = "toggle_command_palette" then some Action.ToggleCommandPalette
  else if action = "clear_all_toasts" then some Action.ClearAllToasts
  else if action = "undo" then some Action.Undo
  else if action = "redo" then some Action.Redo
  else none

/-- The `for` loop of `KeyBindings::key_to_action`: first entry whose key
list contains the key decides the result (via the inner name dispatch). -/
def keyToActionLoop (entries : List (String × List Key)) (key : Key) : Option Action :=
  match entries with
  | [] => none
  | (action, keys) :: rest =>
    if key ∈ keys then actionOfName action else keyToActionLoop rest key

/-- `KeyBindings::key_to_action`. -/
def KeyBindings.key_to_action (tb : KeyBindings) (key : Key) : Option Action :=
  keyToActionLoop tb.iter key

/-- Follows the spec's words: `resolve` scans actions in the fixed declared
priority order (quit, nextFocus, prevFocus, openConfigMenu, up, down, right,
left, takeUserInput, stopUserInput, hideUiElement, saveState, newBoard,
newCard, deleteCard, deleteBoard, the three changeCardStatus actions, resetUi,
goToMainMenu, toggleCommandPalette, clearAllToasts, undo, redo) and returns
the first action whose key list contains the key, absent when none does. -/
def resolveSpec (tb : KeyBindings) (key : Key) : Option Action :=
  if key ∈ tb.quit then some Action.Quit
  else if key ∈ tb.next_focus then some Action.NextFocus
  else if key ∈ tb.prev_focus then some Action.PrvFocus
  else if key ∈ tb.open_config_menu then some Action.OpenConfigMenu
  else if key ∈ tb.up then some Action.Up
  else if key ∈ tb.down then some Action.Down
  else if key ∈ tb.right then some Action.Right
  else if key ∈ tb.left then some Action.Left
  else if key ∈ tb.take_user_input then some Action.TakeUserInput
  else if key ∈ tb.stop_user_input then some Action.StopUserInput
  else if key ∈ tb.hide_ui_element then some Action.HideUiElement
  else if key ∈ tb.save_state then some Action.SaveState
  else if key ∈ tb.new_board then some Action.NewBoard
  else if key ∈ tb.new_card then some Action.NewCard
  else if key ∈ tb.delete_card then some Action.DeleteCard
  else if key ∈ tb.delete_board then some Action.DeleteBoard
  else if key ∈ tb.change_card_status_to_completed then some Action.ChangeCardStatusToCompleted
  else if key ∈ tb.change_card_status_to_active then some Action.ChangeCardStatusToActive
  else if key ∈ tb.change_card_status_to_stale then some Action.ChangeCardStatusToStale
  else if key ∈ tb.reset_ui then some Action.ResetUI
  else if key ∈ tb.go_to_main_menu then some Action.GoToMainMenu
  else if key ∈ tb.toggle_command_palette then some Action.ToggleCommandPalette
  else if key ∈ tb.clear_all_toasts then some Action.ClearAllToasts
  else if key ∈ tb.undo then some Action.Undo
  else if key ∈ tb.redo then some Action.Redo
  else none

/-- `Vec::dedup` as called by `KeyBindings::edit_keybinding`: removes
consecutive repeated elements, keeping the first of each run. -/
def vecDedup : List Key → List Key
  | [] => []
  | [a] => [a]
  | a :: b :: rest =>
    if a = b then vecDedup (b :: rest) else a :: vecDedup (b :: rest)

/-- `KeyBindings::edit_keybinding`: dedups the new list, then replaces the
named action's list; an unknown name only logs a debug message. -/
def KeyBindings.edit_keybinding (tb : KeyBindings) (key : String) (keybinding : List Key) :
    KeyBindings :=
  let kb := vecDedup keybinding
  if key = "quit" then { tb with quit := kb }
  else if key = "next_focus" then { tb with next_focus := kb }
  else if key = "prev_focus" then { tb with prev_focus := kb }
  else if key = "open_config_menu" then { tb with open_config_menu := kb }
  else if key = "up" then { tb with up := kb }
  else if key = "down" then { tb with down := kb }
  else if key = "right" then { tb with right := kb }
  else if key = "left" then { tb with left := kb }
  else if key = "take_user_input" then { tb with take_user_input := kb }
  else if key = "stop_user_input" then { tb with stop_user_input := kb }
  else if key = "hide_ui_element" then { tb with hide_ui_element := kb }
  else if key = "save_state" then { tb with save_state := kb }
  else if key = "new_board" then { tb with new_board := kb }
  else if key = "new_card" then { tb with new_card := kb }
  else if key = "delete_card" then { tb with delete_card := kb }
  else if key = "delete_board" then { tb with delete_board := kb }
  else if key = "change_card_status_to_completed" then
    { tb with change_card_status_to_completed := kb }
  else if key = "change_card_status_to_active" then
    { tb with change_card_status_to_active := kb }
  else if key = "change_card_status_to_stale" then
    { tb with change_card_status_to_stale := kb }
  else if key = "reset_ui" then { tb with reset_ui := kb }
  else if key = "go_to_main_menu" then { tb with go_to_main_menu := kb }
  else if key = "toggle_command_palette" then { tb with toggle_command_palette := kb }
  else if key = "clear_all_toasts" then { tb with clear_all_toasts := kb }
  else if key = "undo" then { tb with undo := kb }
  else if key = "redo" then { tb with redo := kb }
  else tb

/-- `KeyBindings::get_keybinding`: look up one action's key list by name. -/
def KeyBindings.get_keybinding (tb : KeyBindings) (action : String) : Option (List Key) :=
  if action = "quit" then some tb.quit
  else if action = "next_focus" then some tb.next_focus
  else if action = "prev_focus" then some tb.prev_focus
  else if action = "open_config_menu" then some tb.open_config_menu
  else if action = "up" then some tb.up
  else if action = "down" then some tb.down
  else if action = "right" then some tb.right
  else if action = "left" then some tb.left
  else if action = "take_user_input" then some tb.take_user_input
  else if action = "stop_user_input" then some tb.stop_user_input
  else if action = "hide_ui_element" then some tb.hide_ui_element
  else if action = "save_state" then some tb.save_state
  else if action = "new_board" then some tb.new_board
  else if action = "new_card" then some tb.new_card
  else if action = "delete_card" then some tb.delete_card
  else if action = "delete_board" then some tb.delete_board
  else if action = "change_card_status_to_completed" then
    some tb.change_card_status_to_completed
  else if action = "change_card_status_to_active" then some tb.change_card_status_to_active
  else if action = "change_card_status_to_stale" then some tb.change_card_status_to_stale
  else if action = "reset_ui" then some tb.reset_ui
  else if action = "go_to_main_menu" then some tb.go_to_main_menu
  else if action = "toggle_command_palette" then some tb.toggle_command_palette
  else if action = "clear_all_toasts" then some tb.clear_all_toasts
  else if action = "undo" then some tb.undo
  else if action = "redo" then some tb.redo
  else none

/-- `impl Default for KeyBindings`: the factory-default binding table. -/
def KeyBindings.default : KeyBindings :=
  { quit := [Key.Ctrl 'c', Key.Char 'q']
  , next_focus := [Key.Tab]
  , prev_focus := [Key.BackTab]
  , open_config_menu := [Key.Char 'c']
  , up := [Key.Up]
  , down := [Key.Down]
  , right := [Key.Right]
  , left := [Key.Left]
  , take_user_input := [Key.Char 'i']
  , stop_user_input := [Key.Ins]
  , hide_ui_element := [Key.Char 'h']
  , save_state := [Key.Ctrl 's']
  , new_board := [Key.Char 'b']
  , new_card := [Key.Char 'n']
  , delete_card := [Key.Char 'd']
  , delete_board := [Key.Char 'D']
  , change_card_status_to_completed := [Key.Char '1']
  , change_card_status_to_active := [Key.Char '2']
  , change_card_status_to_stale := [Key.Char '3']
  , reset_ui := [Key.Char 'r']
  , go_to_main_menu := [Key.Char 'm']
  , toggle_command_palette := [Key.Ctrl 'p']
  , clear_all_toasts := [Key.Char 't']
  , undo := [Key.Ctrl 'z']
  , redo := [Key.Ctrl 'y']
  }

/-- `Focus::next`: cyclic successor in the ordered target list. Rust indexing
(`available_tabs[…]`) can panic, so out-of-bounds access is `none`. -/
def Focus.next (f : Focus) (available_tabs : List Focus) : Option Focus :=
  if f ∈ available_tabs then
    let index := available_tabs.indexOf f
    if index = available_tabs.length - 1 then available_tabs.get? 0
    else available_tabs.get? (index + 1)
  else available_tabs.get? 0

/-- `Focus::prev`: cyclic predecessor in the ordered target list. -/
def Focus.prev (f : Focus) (available_tabs : List Focus) : Option Focus :=
  if f ∈ available_tabs then
    let index := available_tabs.indexOf f
    if index = 0 then available_tabs.get? (available_tabs.length - 1)
    else available_tabs.get? (index - 1)
  else available_tabs.get? 0

/-- `Focus::to_str`: canonical display string of a focus target. -/
def Focus.to_str (f : Focus) : String :=
  match f with
  | .Title => "Title"
  | .Body => "Body"
  | .Help => "Help"
  | .Log => "Log"
  | .ConfigTable => "Config"
  | .ConfigHelp => "Config Help"
  | .MainMenu => "Main Menu"
  | .MainMenuHelp => "Main Menu Help"
  | .NewBoardName => "New Board Name"
  | .NewBoardDescription => "New Board Description"
  | .CardName => "New Card Name"
  | .CardDescription => "Card Description"
  | .CardDueDate => "Card Due Date"
  | .SubmitButton => "Submit Button"
  | .EditKeybindingsTable => "Edit Keybindings Table"
  | .CloseButton => "Close Button"
  | .CommandPaletteCommand => "Command Palette Command"
  | .CommandPaletteCard => "Command Palette Card"
  | .CommandPaletteBoard => "Command Palette Board"
  | .LoadSave => "Load Save"
  | .SelectDefaultView => "Select Default View"
  | .ChangeUiModePopup => "Change Ui Mode Popup"
  | .ChangeCardStatusPopup => "Change Card Status Popup"
  | .EditGeneralConfigPopup => "Edit General Config Popup"
  | .EditSpecificKeyBindingPopup => "Edit Specific Key Binding Popup"
  | .ThemeSelector => "Theme Selector"
  | .ThemeEditor => "Theme Editor"
  | .StyleEditorFG => "Theme Editor FG"
  | .StyleEditorBG => "Theme Editor BG"
  | .StyleEditorModifier => "Theme Editor Modifier"
  | .TextInput => "Text Input"
  | .CardPriority => "Card Priority"
  | .CardStatus => "Card Status"
  | .CardTags => "Card Tags"
  | .CardComments => "Card Comments"
  | .ChangeCardPriorityPopup => "Change Card Priority Popup"
  | .ChangeDateFormatPopup => "Change Date Format Popup"
  | .FilterByTagPopup => "Filter By Tag Popup"
  | .NoFocus => "No Focus"
  | .ExtraFocus => "Extra Focus"
  | .EmailIDField => "Email ID Field"
  | .PasswordField => "Password Field"
  | .ConfirmPasswordField => "Confirm Password Field"
  | .SendResetPasswordLinkButton => "Send Reset Password Link Button"
  | .ResetPasswordLinkField => "OTP Field"

/-- `impl FromStr for Focus` (`type Err = String`): parses a display string;
the catch-all arm yields `Ok(NoFocus)`, so it never errors. -/
def Focus.from_str (s : String) : Except String Focus :=
  if s = "Title" then .ok .Title
  else if s = "Body" then .ok .Body
  else if s = "Help" then .ok .Help
  else if s = "Log" then .ok .Log
  else if s = "Config" then .ok .ConfigTable
  else if s = "Config Help" then .ok .ConfigHelp
  else if s = "Main Menu" then .ok .MainMenu
  else if s = "Main Menu Help" then .ok .MainMenuHelp
  else if s = "No Focus" then .ok .NoFocus
  else if s = "New Board Name" then .ok .NewBoardName
  else if s = "New Board Description" then .ok .NewBoardDescription
  else if s = "New Card Name" then .ok .CardName
  else if s = "Card Description" then .ok .CardDescription
  else if s = "Card Due Date" then .ok .CardDueDate
  else if s = "Edit Keybindings Table" then .ok .EditKeybindingsTable
  else if s = "Close Button" then .ok .CloseButton
  else if s = "Command Palette Command" then .ok .CommandPaletteCommand
  else if s = "Command Palette Card" then .ok .CommandPaletteCard
  else if s = "Command Palette Board" then .ok .CommandPaletteBoard
  else if s = "Load Save" then .ok .LoadSave
  else if s = "Select Default View" then .ok .SelectDefaultView
  else if s = "Change Ui Mode Popup" then .ok .ChangeUiModePopup
  else if s = "Change Card Status Popup" then .ok .ChangeCardStatusPopup
  else if s = "Edit General Config Popup" then .ok .EditGeneralConfigPopup
  else if s = "Edit Specific Key Binding Popup" then .ok .EditSpecificKeyBindingPopup
  else if s = "Theme Selector" then .ok .ThemeSelector
  else if s = "Theme Editor" then .ok .ThemeEditor
  else if s = "Theme Editor FG" then .ok .StyleEditorFG
  else if s = "Theme Editor BG" then .ok .StyleEditorBG
  else if s = "Theme Editor Modifier" then .ok .StyleEditorModifier
  else if s = "Text Input" then .ok .TextInput
  else if s = "Card Priority" then .ok .CardPriority
  else if s = "Card Status" then .ok .CardStatus
  else if s = "Card Tags" then .ok .CardTags
  else if s = "Card Comments" then .ok .CardComments
  else if s = "Change Card Priority Popup" then .ok .ChangeCardPriorityPopup
  else if s = "Filter By Tag Popup" then .ok .FilterByTagPopup
  else if s = "Submit Button" then .ok .SubmitButton
  else if s = "Extra Focus" then .ok .ExtraFocus
  else .ok .NoFocus

/-- `UiMode::from_string`: parses a display-form mode string. -/
def UiMode.from_string (s : String) : Option UiMode :=
  if s = "Zen" then some .Zen
  else if s = "Title and Body" then some .TitleBody
  else if s = "Body and Help" then some .BodyHelp
  else if s = "Body and Log" then some .BodyLog
  else if s = "Title, Body and Help" then some .TitleBodyHelp
  else if s = "Title, Body and Log" then some .TitleBodyLog
  else if s = "Body, Help and Log" then some .BodyHelpLog
  else if s = "Title, Body, Help and Log" then some .TitleBodyHelpLog
  else if s = "Config" then some .ConfigMenu
  else if s = "Edit Keybindings" then some .EditKeybindings
  else if s = "Main Menu" then some .MainMenu
  else if s = "Help Menu" then some .HelpMenu
  else if s = "Logs Only" then some .LogsOnly
  else if s = "New Board" then some .NewBoard
  else if s = "New Card" then some .NewCard
  else if s = "Load a Save" then some .LoadSave
  else if s = "Create Theme" then some .CreateTheme
  else none

/-- `impl fmt::Display for UiMode`: canonical display label of a mode. -/
def UiMode.toDisplayString (m : UiMode) : String :=
  match m with
  | .Zen => "Zen"
  | .TitleBody => "Title and Body"
  | .BodyHelp => "Body and Help"
  | .BodyLog => "Body and Log"
  | .TitleBodyHelp => "Title, Body and Help"
  | .TitleBodyLog => "Title, Body and Log"
  | .BodyHelpLog => "Body, Help and Log"
  | .TitleBodyHelpLog => "Title, Body, Help and Log"
  | .ConfigMenu => "Config"
  | .EditKeybindings => "Edit Keybindings"
  | .MainMenu => "Main Menu"
  | .HelpMenu => "Help Menu"
  | .LogsOnly => "Logs Only"
  | .NewBoard => "New Board"
  | .NewCard => "New Card"
  | .LoadSave => "Load a Save (Local)"
  | .CreateTheme => "Create Theme"
  | .Login => "Login"
  | .SignUp => "Sign Up"
  | .ResetPassword => "Reset Password"
  | .LoadCloudSave => "Load a Save (Cloud)"

/-- `UiMode::get_available_targets`: the ordered focus targets of a mode. -/
def UiMode.get_available_targets (m : UiMode) : List Focus :=
  match m with
  | .Zen => [.Body]
  | .TitleBody => [.Title, .Body]
  | .BodyHelp => [.Body, .Help]
  | .BodyLog => [.Body, .Log]
  | .TitleBodyHelp => [.Title, .Body, .Help]
  | .TitleBodyLog => [.Title, .Body, .Log]
  | .BodyHelpLog => [.Body, .Help, .Log]
  | .TitleBodyHelpLog => [.Title, .Body, .Help, .Log]
  | .ConfigMenu => [.ConfigTable, .SubmitButton, .ExtraFocus]
  | .EditKeybindings => [.EditKeybindingsTable, .SubmitButton]
  | .MainMenu => [.MainMenu, .MainMenuHelp, .Log]
  | .HelpMenu => [.Help, .Log]
  | .LogsOnly => [.Log]
  | .NewBoard => [.NewBoardName, .NewBoardDescription, .SubmitButton]
  | .NewCard => [.CardName, .CardDescription, .CardDueDate, .SubmitButton]
  | .LoadSave => [.Body]
  | .CreateTheme => [.ThemeEditor, .SubmitButton, .ExtraFocus]
  | .Login => [.Title, .EmailIDField, .PasswordField, .ExtraFocus, .SubmitButton]
  | .SignUp =>
    [.Title, .EmailIDField, .PasswordField, .ConfirmPasswordField, .ExtraFocus, .SubmitButton]
  | .ResetPassword =>
    [ .Title, .EmailIDField, .SendResetPasswordLinkButton, .ResetPasswordLinkField
    , .PasswordField, .ConfirmPasswordField, .ExtraFocus, .SubmitButton ]
  | .LoadCloudSave => [.Body]

/-- The space character, written via its code point. -/
def spaceChar : Char := Char.ofNat 32

/-- `Key::from_f`: function-key constructor; panics (`none`) above `F12`. -/
def Key.from_f (n : Nat) : Option Key :=
  if n = 0 then some .F0
  else if n = 1 then some .F1
  else if n = 2 then some .F2
  else if n = 3 then some .F3
  else if n = 4 then some .F4
  else if n = 5 then some .F5
  else if n = 6 then some .F6
  else if n = 7 then some .F7
  else if n = 8 then some .F8
  else if n = 9 then some .F9
  else if n = 10 then some .F10
  else if n = 11 then some .F11
  else if n = 12 then some .F12
  else none

/-- `impl Display for Key`: the human display form. The space-payload arms
come first in the source; the trailing arm prints the variant's debug name
in angle brackets. -/
def keyDisplay (k : Key) : String :=
  match k with
  | .Alt c => if c = spaceChar then "<Alt+Space>" else "<Alt+" ++ String.singleton c ++ ">"
  | .Ctrl c => if c = spaceChar then "<Ctrl+Space>" else "<Ctrl+" ++ String.singleton c ++ ">"
  | .Char c => if c = spaceChar then "<Space>" else "<" ++ String.singleton c ++ ">"
  | .Tab => "<Tab>"
  | .BackTab => "<Shift+Tab>"
  | .ShiftUp => "<Shift+Up>"
  | .ShiftDown => "<Shift+Down>"
  | .ShiftLeft => "<Shift+Left>"
  | .ShiftRight => "<Shift+Right>"
  | .Enter => "<Enter>"
  | .Backspace => "<Backspace>"
  | .Esc => "<Esc>"
  | .Space => "<Space>"
  | .Left => "<Left>"
  | .Right => "<Right>"
  | .Up => "<Up>"
  | .Down => "<Down>"
  | .Ins => "<Ins>"
  | .Delete => "<Delete>"
  | .Home => "<Home>"
  | .End => "<End>"
  | .PageUp => "<PageUp>"
  | .PageDown => "<PageDown>"
  | .F0 => "<F0>"
  | .F1 => "<F1>"
  | .F2 => "<F2>"
  | .F3 => "<F3>"
  | .F4 => "<F4>"
  | .F5 => "<F5>"
  | .F6 => "<F6>"
  | .F7 => "<F7>"
  | .F8 => "<F8>"
  | .F9 => "<F9>"
  | .F10 => "<F10>"
  | .F11 => "<F11>"
  | .F12 => "<F12>"
  | .Unknown => "<Unknown>"

/-- `impl From<&str> for Key`: the short machine decoding used for persisted
bindings; unrecognized strings fall to `Unknown`. -/
def keyFromString (s : String) : Key :=
  if s = "Enter" then .Enter
  else if s = "Tab" then .Tab
  else if s = "Backspace" then .Backspace
  else if s = "Esc" then .Esc
  else if s = "Space" then .Space
  else if s = "Left" then .Left
  else if s = "Right" then .Right
  else if s = "Up" then .Up
  else if s = "Down" then .Down
  else if s = "Ins" then .Ins
  else if s = "Delete" then .Delete
  else if s = "Home" then .Home
  else if s = "End" then .End
  else if s = "PageUp" then .PageUp
  else if s = "PageDown" then .PageDown
  else if s = "F0" then .F0
  else if s = "F1" then .F1
  else if s = "F2" then .F2
  else if s = "F3" then .F3
  else if s = "F4" then .F4
  else if s = "F5" then .F5
  else if s = "F6" then .F6
  else if s = "F7" then .F7
  else if s = "F8" then .F8
  else if s = "F9" then .F9
  else if s = "F10" then .F10
  else if s = "F11" then .F11
  else if s = "F12" then .F12
  else if s = "BackTab" then .BackTab
  else if s = "ShiftUp" then .ShiftUp
  else if s = "ShiftDown" then .ShiftDown
  else if s = "ShiftLeft" then .ShiftLeft
  else if s = "ShiftRight" then .ShiftRight
  else .Unknown

/-- Modelled from the spec: the encoding side of the short machine form used
for persisted bindings (the serialization of `Key` lives outside the provided
sources). Named variants encode as their tag name; payload-carrying variants
and `Unknown` use a structured encoding instead, so they get `none` here. -/
def keyMachineName (k : Key) : Option String :=
  match k with
  | .Enter => some "Enter"
  | .Tab => some "Tab"
  | .Backspace => some "Backspace"
  | .Esc => some "Esc"
  | .Space => some "Space"
  | .Left => some "Left"
  | .Right => some "Right"
  | .Up => some "Up"
  | .Down => some "Down"
  | .Ins => some "Ins"
  | .Delete => some "Delete"
  | .Home => some "Home"
  | .End => some "End"
  | .PageUp => some "PageUp"
  | .PageDown => some "PageDown"
  | .F0 => some "F0"
  | .F1 => some "F1"
  | .F2 => some "F2"
  | .F3 => some "F3"
  | .F4 => some "F4"
  | .F5 => some "F5"
  | .F6 => some "F6"
  | .F7 => some "F7"
  | .F8 => some "F8"
  | .F9 => some "F9"
  | .F10 => some "F10"
  | .F11 => some "F11"
  | .F12 => some "F12"
  | .BackTab => some "BackTab"
  | .ShiftUp => some "ShiftUp"
  | .ShiftDown => some "ShiftDown"
  | .ShiftLeft => some "ShiftLeft"
  | .ShiftRight => some "ShiftRight"
  | .Char _ => none
  | .Ctrl _ => none
  | .Alt _ => none
  | .Unknown => none

/-- The `serde_json` value cases relevant to persisted key encodings. -/
inductive JsonValue where
  | str (s : String)
  | num (n : Int)
  | bool (b : Bool)
  | null
deriving DecidableEq

/-- `serde_json::Map::get` over a keyed map, modelled as lookup of the first
matching key in an association list. -/
def jsonMapGet (m : List (String × JsonValue)) (k : String) : Option JsonValue :=
  match m with
  | [] => none
  | (k2, v) :: rest => if k2 = k then some v else jsonMapGet rest k

/-- The `value.get(tag).unwrap().as_str().unwrap().chars().next().unwrap()`
chain of `impl From<&Map<String, Value>> for Key`: `none` models a panic
(payload not a string, or empty payload string). -/
def charPayload (v : JsonValue) : Option Char :=
  match v with
  | .str s => s.data.head?
  | _ => none

/-- `impl From<&Map<String, Value>> for Key`: decodes a persisted structured
key encoding; checks the `Char`, `Alt`, `Ctrl` tags in that order, falling
back to `Unknown` when none is present. `none` models a panic. -/
def keyFromJsonMap (value : List (String × JsonValue)) : Option Key :=
  match jsonMapGet value "Char" with
  | some v => (charPayload v).map Key.Char
  | none =>
    match jsonMapGet value "Alt" with
    | some v => (charPayload v).map Key.Alt
    | none =>
      match jsonMapGet value "Ctrl" with
      | some v => (charPayload v).map Key.Ctrl
      | none => some Key.Unknown

/-- `crossterm::event::KeyModifiers`, restricted to the three flags the
source's patterns mention; a pattern naming a single flag constant matches
exactly that flag combination. -/
structure KeyModifiers where
  shift : Bool
  control : Bool
  alt : Bool
deriving DecidableEq

/-- The `crossterm::event::KeyCode` constructors matched by the source;
`Null` stands in for every other raw key code. -/
inductive KeyCode where
  | Backspace
  | Enter
  | Left
  | Right
  | Up
  | Down
  | Home
  | End
  | PageUp
  | PageDown
  | Tab
  | BackTab
  | Delete
  | Insert
  | F (n : Nat)
  | Char (c : Char)
  | Esc
  | Null
deriving DecidableEq

/-- `crossterm::event::KeyEventKind`. -/
inductive KeyEventKind where
  | Press
  | Repeat
  | Release
deriving DecidableEq

/-- `crossterm::event::KeyEvent` (its `state` field is ignored by every
pattern in the source, so it is omitted). -/
structure KeyEvent where
  code : KeyCode
  modifiers : KeyModifiers
  kind : KeyEventKind
deriving DecidableEq

/-- `impl From<event::KeyEvent> for Key`: normalization of a raw key event,
with the source's match arms in order; `none` models the `from_f` panic. -/
def fromKeyEvent (e : KeyEvent) : Option Key :=
  match e.code, e.modifiers, e.kind with
  | .Esc, _, .Press => some .Esc
  | .Backspace, _, .Press => some .Backspace
  | .Left, ⟨true, false, false⟩, .Press => some .ShiftLeft
  | .Left, _, .Press => some .Left
  | .Right, ⟨true, false, false⟩, .Press => some .ShiftRight
  | .Right, _, .Press => some .Right
  | .Up, ⟨true, false, false⟩, .Press => some .ShiftUp
  | .Up, _, .Press => some .Up
  | .Down, ⟨true, false, false⟩, .Press => some .ShiftDown
  | .Down, _, .Press => some .Down
  | .Home, _, .Press => some .Home
  | .End, _, .Press => some .End
  | .PageUp, _, .Press => some .PageUp
  | .PageDown, _, .Press => some .PageDown
  | .Delete, _, .Press => some .Delete
  | .Insert, _, .Press => some .Ins
  | .F n, _, .Press => Key.from_f n
  | .Enter, _, .Press => some .Enter
  | .BackTab, ⟨true, false, false⟩, .Press => some .BackTab
  | .Tab, _, .Press => some .Tab
  | .Char c, ⟨false, false, true⟩, .Press => some (.Alt c)
  | .Char c, ⟨false, true, false⟩, .Press => some (.Ctrl c)
  | .Char c, _, .Press => some (.Char c)
  | _, _, _ => some .Unknown

/-- Follows the spec's words (as amended): on a key press, exactly the Shift
modifier on an arrow gives the dedicated Shift-arrow variant; a character with
exactly the Control modifier gives the Ctrl variant; a character with exactly
the Alt modifier gives the Alt variant; a character with any other modifier
combination gives the plain character variant; named non-character keys map
directly to their variants (BackTab only with exactly Shift; function keys
`F0`–`F12`, while `F(n)` with `n > 12` panics); anything unmatched, and any
non-press event, maps to `Unknown`. -/
def normalizeSpec (e : KeyEvent) : Option Key :=
  match e.kind with
  | .Press =>
    match e.code, e.modifiers with
    | .Left, ⟨true, false, false⟩ => some .ShiftLeft
    | .Right, ⟨true, false, false⟩ => some .ShiftRight
    | .Up, ⟨true, false, false⟩ => some .ShiftUp
    | .Down, ⟨true, false, false⟩ => some .ShiftDown
    | .Char c, ⟨false, true, false⟩ => some (.Ctrl c)
    | .Char c, ⟨false, false, true⟩ => some (.Alt c)
    | .Char c, _ => some (.Char c)
    | .Enter, _ => some .Enter
    | .Tab, _ => some .Tab
    | .BackTab, ⟨true, false, false⟩ => some .BackTab
    | .Backspace, _ => some .Backspace
    | .Esc, _ => some .Esc
    | .Left, _ => some .Left
    | .Right, _ => some .Right
    | .Up, _ => some .Up
    | .Down, _ => some .Down
    | .Insert, _ => some .Ins
    | .Delete, _ => some .Delete
    | .Home, _ => some .Home
    | .End, _ => some .End
    | .PageUp, _ => some .PageUp
    | .PageDown, _ => some .PageDown
    | .F n, _ => Key.from_f n
    | _, _ => some .Unknown
  | _ => some .Unknown

/-- The fixed named-variant display strings, for `decodeDisplay`. -/
def decodeNamed (s : List Char) : Option Key :=
  if s = "<Space>".data then some (.Char spaceChar)
  else if s = "<Ctrl+Space>".data then some (.Ctrl spaceChar)
  else if s = "<Alt+Space>".data then some (.Alt spaceChar)
  else if s = "<Tab>".data then some .Tab
  else if s = "<Shift+Tab>".data then some .BackTab
  else if s = "<Shift+Up>".data then some .ShiftUp
  else if s = "<Shift+Down>".data then some .ShiftDown
  else if s = "<Shift+Left>".data then some .ShiftLeft
  else if s = "<Shift+Right>".data then some .ShiftRight
  else if s = "<Enter>".data then some .Enter
  else if s = "<Backspace>".data then some .Backspace
  else if s = "<Esc>".data then some .Esc
  else if s = "<Left>".data then some .Left
  else if s = "<Right>".data then some .Right
  else if s = "<Up>".data then some .Up
  else if s = "<Down>".data then some .Down
  else if s = "<Ins>".data then some .Ins
  else if s = "<Delete>".data then some .Delete
  else if s = "<Home>".data then some .Home
  else if s = "<End>".data then some .End
  else if s = "<PageUp>".data then some .PageUp
  else if s = "<PageDown>".data then some .PageDown
  else if s = "<F0>".data then some .F0
  else if s = "<F1>".data then some .F1
  else if s = "<F2>".data then some .F2
  else if s = "<F3>".data then some .F3
  else if s = "<F4>".data then some .F4
  else if s = "<F5>".data then some .F5
  else if s = "<F6>".data then some .F6
  else if s = "<F7>".data then some .F7
  else if s = "<F8>".data then some .F8
  else if s = "<F9>".data then some .F9
  else if s = "<F10>".data then some .F10
  else if s = "<F11>".data then some .F11
  else if s = "<F12>".data then some .F12
  else none

/-- Left inverse of `keyDisplay` on every variant except `Space` and
`Unknown`, used to establish injectivity of the display encoding. -/
def decodeDisplay (s : List Char) : Option Key :=
  match s with
  | ['<', c, '>'] => some (.Char c)
  | ['<', x1, x2, x3, x4, c1, c2] =>
    if x1 = 'A' ∧ x2 = 'l' ∧ x3 = 't' ∧ x4 = '+' ∧ c2 = '>' then some (.Alt c1)
    else decodeNamed ('<' :: x1 :: x2 :: x3 :: x4 :: c1 :: c2 :: [])
  | ['<', x1, x2, x3, x4, x5, c1, c2] =>
    if x1 = 'C' ∧ x2 = 't' ∧ x3 = 'r' ∧ x4 = 'l' ∧ x5 = '+' ∧ c2 = '>' then some (.Ctrl c1)
    else decodeNamed ('<' :: x1 :: x2 :: x3 :: x4 :: x5 :: c1 :: c2 :: [])
  | _ => decodeNamed s

/-- The display strings recognized by `UiMode::from_string`. -/
def recognizedDisplayStrings : List String :=
  [ "Zen", "Title and Body", "Body and Help", "Body and Log"
  , "Title, Body and Help", "Title, Body and Log", "Body, Help and Log"
  , "Title, Body, Help and Log", "Config", "Edit Keybindings", "Main Menu"
  , "Help Menu", "Logs Only", "New Board", "New Card", "Load a Save"
  , "Create Theme" ]

/-- The `Focus` variants whose display string `Focus::from_str` does not
recognize (each falls to the catch-all `Ok(NoFocus)` arm). -/
def focusRoundTripExceptions : List Focus :=
  [ .ChangeDateFormatPopup, .EmailIDField, .PasswordField, .ConfirmPasswordField
  , .SendResetPasswordLinkButton, .ResetPasswordLinkField ]

/-- The `UiMode` variants whose display string `UiMode::from_string` does not
recognize. -/
def uiModeRoundTripExceptions : List UiMode :=
  [ .LoadSave, .Login, .SignUp, .ResetPassword, .LoadCloudSave ]

/-- C8: for every `UiMode` `m`, `get_available_targets m` returns a
non-empty ordered list of `Focus` targets. -/
theorem uimode_targets_nonempty : ∀ m : UiMode, UiMode.get_available_targets m ≠ [] := by
  intro m
  cases m <;> simp [UiMode.get_available_targets]

/-- C10: in the factory-default key binding table, no `Key` value appears in
the key lists of two different actions, so `key_to_action` on the default
table never needs the priority order to break a tie. -/
theorem default_keybindings_no_shared_key :
    (KeyBindings.default.iter).Pairwise (fun p q => ∀ k : Key, k ∈ p.2 → k ∉ q.2) := by
  decide

/-- C2 (code behavior at the failing input): `edit_keybinding` calls
`Vec::dedup`, which removes only consecutive duplicates, so the trailing
repeat of `Ctrl('c')` survives and `get_keybinding "quit"` returns the
three-element list, not the de-duplicated two-element list the spec states. -/
theorem edit_keybinding_dedup_eval :
    (KeyBindings.default.edit_keybinding "quit"
        [Key.Ctrl 'c', Key.Char 'q', Key.Ctrl 'c']).get_keybinding "quit"
      = some [Key.Ctrl 'c', Key.Char 'q', Key.Ctrl 'c'] := by
  decide

/-- C1: `key_to_action` is a pure function of the table and the key that
scans actions in the fixed declared priority order (quit, nextFocus,
prevFocus, openConfigMenu, up, down, right, left, takeUserInput,
stopUserInput, hideUiElement, saveState, newBoard, newCard, deleteCard,
deleteBoard, the three changeCardStatus actions, resetUi, goToMainMenu,
toggleCommandPalette, clearAllToasts, undo, redo) and returns the first
action whose key list contains the key, absent when none does; in
particular, a table binding `Char('x')` to both quit and undo resolves
`Char('x')` to `Quit`. -/
theorem keybindings_resolve_priority :
    (∀ (tb : KeyBindings) (k : Key), tb.key_to_action k = resolveSpec tb k) ∧
    (∀ tb : KeyBindings, Key.Char 'x' ∈ tb.quit → Key.Char 'x' ∈ tb.undo →
      tb.key_to_action (Key.Char 'x') = some Action.Quit) := by
  have base : ∀ (tb : KeyBindings) (k : Key), tb.key_to_action k = resolveSpec tb k := by
    intro tb k
    rfl
  refine ⟨base, fun tb h1 _h2 => ?_⟩
  rw [base tb (Key.Char 'x')]
  unfold resolveSpec
  rw [if_pos h1]

/-- C1 witness: on a concrete table with `Char('x')` bound to both quit and
undo, resolution yields `Quit`. -/
theorem keybindings_resolve_priority_witness :
    ({ KeyBindings.default with quit := [Key.Char 'x'], undo := [Key.Char 'x'] }
      : KeyBindings).key_to_action (Key.Char 'x') = some Action.Quit :=
  keybindings_resolve_priority.2 _ (by decide) (by decide)

/-- C3: over a non-empty target list, `next`/`prev` return the first target
when the current focus is not a member; when the current focus sits at
index `i` (in a duplicate-free list), `next` returns the element at `i+1`,
wrapping to index 0 from the last index, and `prev` returns the element at
`i-1`, wrapping to the last index from index 0. -/
theorem focus_ring_next_prev (tabs : List Focus) (c : Focus) (hne : 0 < tabs.length) :
    (c ∉ tabs →
      Focus.next c tabs = some (tabs.get ⟨0, hne⟩) ∧
      Focus.prev c tabs = some (tabs.get ⟨0, hne⟩)) ∧
    (∀ i : Fin tabs.length, tabs.Nodup → tabs.get i = c →
      (Focus.next c tabs =
        if i.1 = tabs.length - 1 then some (tabs.get ⟨0, hne⟩)
        else tabs.get? (i.1 + 1)) ∧
      (Focus.prev c tabs =
        if i.1 = 0 then some (tabs.get ⟨tabs.length - 1, by omega⟩)
        else tabs.get? (i.1 - 1))) := by
  have h0 : tabs.get? 0 = some (tabs.get ⟨0, hne⟩) := List.get?_eq_get hne
  have hlast : tabs.get? (tabs.length - 1) =
      some (tabs.get ⟨tabs.length - 1, by omega⟩) := List.get?_eq_get (by omega)
  refine ⟨fun hc => ⟨?_, ?_⟩, fun i hnd hi => ?_⟩
  · unfold Focus.next
    rw [if_neg hc]
    exact h0
  · unfold Focus.prev
    rw [if_neg hc]
    exact h0
  · have hmem : c ∈ tabs := hi ▸ tabs.get_mem i.1 i.2
    have hidx : tabs.indexOf c = i.1 := by
      rw [← hi]
      exact List.get_indexOf hnd i
    constructor
    · unfold Focus.next
      rw [if_pos hmem]
      simp only [hidx]
      by_cases hl : i.1 = tabs.length - 1
      · rw [if_pos hl, if_pos hl]
        exact h0
      · rw [if_neg hl, if_neg hl]
    · unfold Focus.prev
      rw [if_pos hmem]
      simp only [hidx]
      by_cases hz : i.1 = 0
      · rw [if_pos hz, if_pos hz]
        exact hlast
      · rw [if_neg hz, if_neg hz]

/-- C3 witness: in the ConfigMenu ring, a non-member lands on the first
target, and `SubmitButton` (index 1 of 3) steps to `ExtraFocus`. -/
theorem focus_ring_next_prev_witness :
    Focus.next Focus.NoFocus [Focus.ConfigTable, Focus.SubmitButton, Focus.ExtraFocus]
      = some Focus.ConfigTable ∧
    Focus.next Focus.SubmitButton [Focus.ConfigTable, Focus.SubmitButton, Focus.ExtraFocus]
      = some Focus.ExtraFocus := by
  constructor
  · exact ((focus_ring_next_prev _ Focus.NoFocus (by decide)).1 (by decide)).1
  · have h := ((focus_ring_next_prev
      [Focus.ConfigTable, Focus.SubmitButton, Focus.ExtraFocus] Focus.SubmitButton
      (by decide)).2 ⟨1, by decide⟩ (by decide) (by decide)).1
    exact h.trans (by decide)

/-- C5 counterexample: `LoadSave` displays as `"Load a Save (Local)"`, which
`from_string` does not recognize, so the display round trip fails there
(the claim requires `some LoadSave`). -/
theorem uimode_loadsave_roundtrip_fails :
    UiMode.from_string (UiMode.toDisplayString UiMode.LoadSave) = none ∧
    UiMode.from_string (UiMode.toDisplayString UiMode.LoadSave) ≠ some UiMode.LoadSave := by
  decide

/-- C5 (amended): the display round trip `from_string (toDisplayString m) =
some m` holds for every mode except `LoadSave`, `Login`, `SignUp`,
`ResetPassword` and `LoadCloudSave`; and every string outside the table of
recognized display strings parses to `none` rather than crashing. -/
theorem uimode_display_roundtrip_amended :
    (∀ m : UiMode, m ∉ uiModeRoundTripExceptions →
      UiMode.from_string (UiMode.toDisplayString m) = some m) ∧
    (∀ s : String, s ∉ recognizedDisplayStrings → UiMode.from_string s = none) := by
  constructor
  · intro m
    cases m <;> decide
  · intro s hs
    unfold UiMode.from_string
    by_cases h1 : s = "Zen"
    · subst h1
      exact absurd (by decide) hs
    rw [if_neg h1]
    by_cases h2 : s = "Title and Body"
    · subst h2
      exact absurd (by decide) hs
    rw [if_neg h2]
    by_cases h3 : s = "Body and Help"
    · subst h3
      exact absurd (by decide) hs
    rw [if_neg h3]
    by_cases h4 : s = "Body and Log"
    · subst h4
      exact absurd (by decide) hs
    rw [if_neg h4]
    by_cases h5 : s = "Title, Body and Help"
    · subst h5
      exact absurd (by decide) hs
    rw [if_neg h5]
    by_cases h6 : s = "Title, Body and Log"
    · subst h6
      exact absurd (by decide) hs
    rw [if_neg h6]
    by_cases h7 : s = "Body, Help and Log"
    · subst h7
      exact absurd (by decide) hs
    rw [if_neg h7]
    by_cases h8 : s = "Title, Body, Help and Log"
    · subst h8
      exact absurd (by decide) hs
    rw [if_neg h8]
    by_cases h9 : s = "Config"
    · subst h9
      exact absurd (by decide) hs
    rw [if_neg h9]
    by_cases h10 : s = "Edit Keybindings"
    · subst h10
      exact absurd (by decide) hs
    rw [if_neg h10]
    by_cases h11 : s = "Main Menu"
    · subst h11
      exact absurd (by decide) hs
    rw [if_neg h11]
    by_cases h12 : s = "Help Menu"
    · subst h12
      exact absurd (by decide) hs
    rw [if_neg h12]
    by_cases h13 : s = "Logs Only"
    · subst h13
      exact absurd (by decide) hs
    rw [if_neg h13]
    by_cases h14 : s = "New Board"
    · subst h14
      exact absurd (by decide) hs
    rw [if_neg h14]
    by_cases h15 : s = "New Card"
    · subst h15
      exact absurd (by decide) hs
    rw [if_neg h15]
    by_cases h16 : s = "Load a Save"
    · subst h16
      exact absurd (by decide) hs
    rw [if_neg h16]
    by_cases h17 : s = "Create Theme"
    · subst h17
      exact absurd (by decide) hs
    rw [if_neg h17]

/-- C5 witness: the round trip holds at `Zen`, and a string unknown to the
table parses to `none`. -/
theorem uimode_display_roundtrip_witness :
    UiMode.from_string (UiMode.toDisplayString UiMode.Zen) = some UiMode.Zen ∧
    UiMode.from_string "Bogus" = none :=
  ⟨uimode_display_roundtrip_amended.1 UiMode.Zen (by decide),
   uimode_display_roundtrip_amended.2 "Bogus" (by decide)⟩

/-- C9 counterexample: `ChangeDateFormatPopup` displays as
`"Change Date Format Popup"`, which `from_str` does not recognize; the
catch-all arm returns `Ok(NoFocus)` instead of the original variant. -/
theorem focus_datepopup_roundtrip_fails :
    Focus.from_str (Focus.to_str Focus.ChangeDateFormatPopup) = Except.ok Focus.NoFocus ∧
    Focus.NoFocus ≠ Focus.ChangeDateFormatPopup := by
  exact ⟨rfl, by decide⟩

/-- C9 (amended): `from_str (to_str f) = Ok f` holds for every `Focus`
variant except `ChangeDateFormatPopup`, `EmailIDField`, `PasswordField`,
`ConfirmPasswordField`, `SendResetPasswordLinkButton` and
`ResetPasswordLinkField`, whose display strings all fall to the catch-all
`Ok(NoFocus)` arm. -/
theorem focus_roundtrip_amended :
    (∀ f : Focus, f ∉ focusRoundTripExceptions →
      Focus.from_str (Focus.to_str f) = Except.ok f) ∧
    (∀ f : Focus, f ∈ focusRoundTripExceptions →
      Focus.from_str (Focus.to_str f) = Except.ok Focus.NoFocus) := by
  constructor
  · intro f hf
    cases f <;> first | rfl | exact absurd (by decide) hf
  · intro f hf
    cases f <;> first | rfl | exact absurd hf (by decide)

/-- C9 witness: the round trip holds at `Title`; `ChangeDateFormatPopup`
falls to `NoFocus`. -/
theorem focus_roundtrip_witness :
    Focus.from_str (Focus.to_str Focus.Title) = Except.ok Focus.Title ∧
    Focus.from_str (Focus.to_str Focus.ChangeDateFormatPopup) = Except.ok Focus.NoFocus :=
  ⟨focus_roundtrip_amended.1 Focus.Title (by decide),
   focus_roundtrip_amended.2 Focus.ChangeDateFormatPopup (by decide)⟩

/-- C6 counterexample: a `Char`-tagged map whose payload is not a string,
or is the empty string, makes the decoder panic (`none`) instead of
yielding the catch-all `Unknown` the claim states. -/
theorem json_key_decode_panics :
    keyFromJsonMap [("Char", JsonValue.num 5)] = none ∧
    keyFromJsonMap [("Char", JsonValue.str "")] = none := by
  decide

/-- C6 (amended): a map with none of the recognized tags (`Char`, `Alt`,
`Ctrl`) decodes to the catch-all `Unknown`; but a map whose `Char` tag
carries a non-string payload, or the empty string, panics during the load
instead of decoding to `Unknown`. -/
theorem json_key_decode_amended :
    (∀ m : List (String × JsonValue),
      jsonMapGet m "Char" = none → jsonMapGet m "Alt" = none →
      jsonMapGet m "Ctrl" = none → keyFromJsonMap m = some Key.Unknown) ∧
    (∀ (m : List (String × JsonValue)) (v : JsonValue),
      jsonMapGet m "Char" = some v → (∀ s, v ≠ JsonValue.str s) →
      keyFromJsonMap m = none) ∧
    (∀ m : List (String × JsonValue),
      jsonMapGet m "Char" = some (JsonValue.str "") → keyFromJsonMap m = none) := by
  refine ⟨?_, ?_, ?_⟩
  · intro m h1 h2 h3
    simp only [keyFromJsonMap, h1, h2, h3]
  · intro m v h1 hv
    simp only [keyFromJsonMap, h1]
    cases v with
    | str s => exact absurd rfl (hv s)
    | num n => rfl
    | bool b => rfl
    | null => rfl
  · intro m h1
    simp only [keyFromJsonMap, h1]
    rfl

/-- C6 witness: the empty map decodes to `Unknown`; a `Char` tag with a
`null` payload panics. -/
theorem json_key_decode_witness :
    keyFromJsonMap [] = some Key.Unknown ∧
    keyFromJsonMap [("Char", JsonValue.null)] = none :=
  ⟨json_key_decode_amended.1 [] rfl rfl rfl,
   json_key_decode_amended.2.1 [("Char", JsonValue.null)] JsonValue.null rfl
     (fun _ h => JsonValue.noConfusion h)⟩

/-- C4 counterexample: a press of `F(13)` reaches `from_f`'s panic arm
(`none`), so normalization is not panic-free; and a character pressed with
Control and Alt together yields the plain character variant, not the
Ctrl-character variant, because the source's modifier patterns match exact
flag sets. -/
theorem key_normalizer_not_total :
    fromKeyEvent ⟨KeyCode.F 13, ⟨false, false, false⟩, KeyEventKind.Press⟩ = none ∧
    fromKeyEvent ⟨KeyCode.Char 'x', ⟨false, true, true⟩, KeyEventKind.Press⟩
      = some (Key.Char 'x') := by
  decide

/-- C4 (amended): normalization equals the precedence-ordered specification
`normalizeSpec`: on a press, exactly-Shift arrows give Shift-arrow variants;
a character with exactly Control gives Ctrl, with exactly Alt gives Alt, and
with any other modifier combination the plain character variant; named keys
map directly (BackTab only with exactly Shift, `F0`–`F12` to their variants
while `F(n)` with `n > 12` panics); everything else, and every non-press
event, maps to `Unknown`. -/
theorem key_normalizer_refines_spec : ∀ e : KeyEvent, fromKeyEvent e = normalizeSpec e := by
  intro e
  rcases e with ⟨code, mods, kind⟩
  rcases mods with ⟨s, c, a⟩
  cases code <;> cases kind <;> cases s <;> cases c <;> cases a <;> rfl

/-- C7 counterexample: the display encoding is not injective on the covered
variants: `Key::Space` and `Key::Char(' ')` both display as `"<Space>"`. -/
theorem key_display_space_collision :
    keyDisplay Key.Space = keyDisplay (Key.Char spaceChar) ∧
    Key.Space ≠ Key.Char spaceChar := by
  exact ⟨rfl, by decide⟩

/-- `decodeDisplay` inverts `keyDisplay` on every variant other than
`Space` and `Unknown`. -/
theorem decodeDisplay_keyDisplay (k : Key) (h1 : k ≠ Key.Unknown) (h2 : k ≠ Key.Space) :
    decodeDisplay (keyDisplay k).data = some k := by
  cases k
  case Space => exact absurd rfl h2
  case Unknown => exact absurd rfl h1
  case Char c =>
    by_cases hc : c = spaceChar
    · subst hc
      rfl
    · simp only [keyDisplay, if_neg hc, String.data_append, String.data_singleton]
      rfl
  case Ctrl c =>
    by_cases hc : c = spaceChar
    · subst hc
      rfl
    · simp only [keyDisplay, if_neg hc, String.data_append, String.data_singleton]
      rfl
  case Alt c =>
    by_cases hc : c = spaceChar
    · subst hc
      rfl
    · simp only [keyDisplay, if_neg hc, String.data_append, String.data_singleton]
      rfl
  all_goals rfl

/-- C7 (amended): the human display encoding is injective on the `Key`
variants it covers once `Unknown` and the `Space`/`Char(' ')` collision are
excluded, and the short machine encoding round-trips: parsing a named
variant's machine name returns that variant. -/
theorem key_encodings_amended :
    (∀ k1 k2 : Key, k1 ≠ Key.Unknown → k1 ≠ Key.Space → k2 ≠ Key.Unknown → k2 ≠ Key.Space →
      keyDisplay k1 = keyDisplay k2 → k1 = k2) ∧
    (∀ (k : Key) (s : String), keyMachineName k = some s → keyFromString s = k) := by
  constructor
  · intro k1 k2 h1 h2 h3 h4 heq
    have e1 := decodeDisplay_keyDisplay k1 h1 h2
    have e2 := decodeDisplay_keyDisplay k2 h3 h4
    rw [heq, e2] at e1
    exact (Option.some.inj e1).symm
  · intro k s h
    cases k <;> simp only [keyMachineName] at h <;> cases h <;> rfl

/-- C7 witness: injectivity applied at `Tab`, and the machine round trip at
`Enter`. -/
theorem key_encodings_witness :
    Key.Tab = Key.Tab ∧ keyFromString "Enter" = Key.Enter :=
  ⟨key_encodings_amended.1 Key.Tab Key.Tab (by decide) (by decide) (by decide) (by decide) rfl,
   key_encodings_amended.2 Key.Enter "Enter" rfl⟩

end RustKanban

